import Mathlib

/-!
Verification of ebm_utils/analysis/changepoints.py against its
natural-language specification.

Shallow embedding conventions:
* Python floats are modelled as rationals; a division whose denominator is
  zero is tracked explicitly (numpy yields inf or nan there, never a finite
  value), so nonfinite results are represented rather than silently becoming
  zero.
* Python sequences are Lean lists; indexing a list at position i is modelled
  with List.getD (all indices used by the program are in range at every call
  site used by a theorem).
* Fallible code (assert statements and library calls that raise) returns
  Except String.
* The external capabilities (model fitting, embedding extraction, the
  BayesOffline changepoint detector) are parameters of the embedded
  functions, per the spec section 6 interface descriptions.
-/

/-- Dynamic Python value as it flows through evaluate_discontinuity_sample.
The call site at changepoints.py lines 130-136 passes a bool where the
function expects y_true and a float where it expects idx_before_mid, so the
embedding needs both shapes plus the nonfinite float results of a zero
denominator (inf and nan). -/
inductive PyVal where
  | pybool (b : Bool)
  | pynum (q : ℚ)
  | pynonfinite
deriving DecidableEq

/-- Python truthiness: a bool is itself, a float is truthy iff nonzero,
and inf, -inf, nan are all truthy. -/
def PyVal.truthy : PyVal → Bool
  | .pybool b => b
  | .pynum q => decide (q ≠ 0)
  | .pynonfinite => true

/-- The Python test v == 0.0: False == 0.0 is True, True == 0.0 is False
(bool is an int subtype), a float compares numerically, and inf and nan
are never equal to 0.0. -/
def PyVal.eq_zero : PyVal → Bool
  | .pybool b => !b
  | .pynum q => decide (q = 0)
  | .pynonfinite => false

/-- Float division: nonzero denominator gives the exact quotient, zero
denominator gives a nonfinite float (inf, -inf or nan). -/
def pydiv (a b : ℚ) : PyVal :=
  if b = 0 then PyVal.pynonfinite else PyVal.pynum (a / b)

/-- One numpy error-handling mode, as accepted by np.seterr. -/
inductive NpErrMode where
  | ignore
  | warn
  | raiseMode
  | callMode
  | printMode
  | logMode
deriving DecidableEq

/-- The process-wide numpy numeric-error configuration (np.seterr /
np.geterr): one mode per error category. -/
structure NpErrState where
  divide : NpErrMode
  over : NpErrMode
  under : NpErrMode
  invalid : NpErrMode
deriving DecidableEq

/-- np.seterr with only the invalid keyword: updates that category and
leaves the rest of the configuration unchanged. -/
def np_seterr_invalid (s : NpErrState) (m : NpErrMode) : NpErrState :=
  { s with invalid := m }

/-- Lines 36-37: elementwise (y[1:] - y[:-1]) / (x[1:] - x[:-1]) followed by
slopes[~np.isfinite(slopes)] = 0.0, i.e. every nonfinite quotient (zero
x-difference) is replaced by exactly 0. -/
def calc_slopes (x_arr y_arr : List ℚ) : List ℚ :=
  List.zipWith
    (fun dy dx =>
      match pydiv dy dx with
      | PyVal.pynum q => q
      | _ => 0)
    (List.zipWith (fun b a => b - a) y_arr.tail y_arr)
    (List.zipWith (fun b a => b - a) x_arr.tail x_arr)

/-- Lines 31-39 of calc_slopes with the np.seterr calls made explicit as
state passing: seterr(invalid="ignore"), the slope computation (whose
numeric result does not depend on the error state), then
seterr(invalid="warn"). The function returns the slopes and the
process-wide error configuration left behind. -/
def calc_slopes_errstate (s : NpErrState) (x_arr y_arr : List ℚ) :
    List ℚ × NpErrState :=
  let s1 := np_seterr_invalid s NpErrMode.ignore
  let slopes := calc_slopes x_arr y_arr
  let s2 := np_seterr_invalid s1 NpErrMode.warn
  (slopes, s2)

/-- np.mean of a 1-D array: the arithmetic mean, and nan (modelled as none)
on an empty array. -/
def np_mean (l : List ℚ) : Option ℚ :=
  if l.length = 0 then none else some (l.sum / (l.length : ℚ))

/-- Python comparison a > b where either side may be nan (none): any
comparison against nan is False. -/
def opt_gt (a b : Option ℚ) : Bool :=
  match a, b with
  | some x, some y => decide (y < x)
  | _, _ => false

/-- Python slice l[a:b] for nonnegative bounds. -/
def py_slice (l : List ℚ) (a b : ℕ) : List ℚ :=
  (l.drop a).take (b - a)

/-- Lines 55-65: is_counter_causal. prev and next window bounds are
clamped, the means of the two (at most one element) slope slices are
compared; an empty slice has mean nan and any comparison with nan is
False. For a natural-number changepoint, truncated subtraction makes
changepoint - 1 equal to np.max([0, changepoint - 1]). -/
def is_counter_causal (my_slopes : List ℚ) (changepoint : ℕ) : Bool :=
  let prev_changepoint := changepoint - 1
  let next_changepoint := min (changepoint + 1) (my_slopes.length - 1)
  let prev_slopes := np_mean (py_slice my_slopes prev_changepoint changepoint)
  let next_slopes := np_mean (py_slice my_slopes changepoint next_changepoint)
  opt_gt prev_slopes next_slopes

/-- np.argsort: the list of indices that sorts v ascending (line 47 / 79).
numpy leaves the relative order of equal keys unspecified (quicksort); the
model fixes the stable order, and no theorem below depends on tie order. -/
def np_argsort (v : List ℚ) : List ℕ :=
  List.insertionSort (fun i j => v.getD i 0 ≤ v.getD j 0) (List.range v.length)

/-- vals reindexed by the permutation that sorts key ascending, i.e.
vals[np.argsort(key)]. -/
def sorted_by (key vals : List ℚ) : List ℚ :=
  (np_argsort key).map (fun i => vals.getD i 0)

/-- Per-feature slope sequence of the non-monotonicity path (lines 47-50
via calculate_slopes and line 80): slopes of the feature column sorted by
x, with the embedding column reordered by the same permutation. -/
def feature_my_slopes (xs ys : List ℚ) : List ℚ :=
  calc_slopes (sorted_by xs xs) (sorted_by xs ys)

/-- Line 81: indices whose slope magnitude strictly exceeds 1e-8 (the
float literal 1e-8 idealized as the rational 1/100000000). -/
def nonmono_nonzero_idx (my_slopes : List ℚ) : List ℕ :=
  (List.range my_slopes.length).filter
    (fun i => (1 : ℚ) / 100000000 < |my_slopes.getD i 0|)

/-- Lines 83-84: keep only the above-threshold slopes and reduce each to
its sign by dividing by its absolute value. -/
def nonmono_signs (my_slopes : List ℚ) : List ℚ :=
  ((nonmono_nonzero_idx my_slopes).map (fun i => my_slopes.getD i 0)).map
    (fun s => s / |s|)

/-- The sign sequence of one feature: lines 80-84 composed. -/
def feature_signs (xs ys : List ℚ) : List ℚ :=
  nonmono_signs (feature_my_slopes xs ys)

/-- Line 82: the sorted x values restricted to the above-threshold slope
indices. -/
def feature_x_nz (xs ys : List ℚ) : List ℕ × List ℚ :=
  let idx := nonmono_nonzero_idx (feature_my_slopes xs ys)
  (idx, idx.map (fun i => (sorted_by xs xs).getD i 0))

/-- Lines 77-92, the body of the per-feature loop of
find_non_monotonicities_from_ebm: detector output filtered by the optional
counter-causal test, each surviving changepoint emitted as a
(feature, x value) row. The detect parameter is the external BayesOffline
find_changepoints capability (spec section 6). -/
def nonmono_feature_rows (detect : List ℚ → ℚ → List ℕ) (prob_threshold : ℚ)
    (counter_causal_only : Bool) (predictor : String) (xs ys : List ℚ) :
    List (String × ℚ) :=
  let my_slopes := feature_signs xs ys
  let sorted_x_nz := (feature_x_nz xs ys).2
  if my_slopes.length < 3 then []
  else
    ((detect my_slopes prob_threshold).filter
        (fun changepoint =>
          !(counter_causal_only && !(is_counter_causal my_slopes changepoint)))).map
      (fun changepoint => (predictor, sorted_x_nz.getD changepoint 0))

/-- pd.DataFrame(np.array(rows), columns) as used at lines 93-96 and
208-211. np.array of an empty row list is a 1-D array of shape (0,), which
pandas reshapes to one column; with a column list of any other length the
constructor raises ValueError, so an empty result list reaches the caller
as an exception rather than as an empty table. A nonempty rectangular row
list matches its column count and constructs normally. -/
def pd_DataFrame {α : Type} (rows : List α) (ncols : ℕ) :
    Except String (List α) :=
  if rows.isEmpty ∧ ncols ≠ 1 then Except.error "ValueError" else Except.ok rows

/-- Lines 68-97: find_non_monotonicities_from_ebm. Each feature is a
(predictor name, x column, embedding column) triple; the embedding column
is the output of the external calc_embeddings capability for that feature,
row-aligned with the x column. The row cells are coerced to strings by
np.array in the source; the model keeps the underlying values, which is
faithful for every property stated about this table. -/
def find_non_monotonicities_from_ebm (detect : List ℚ → ℚ → List ℕ)
    (features : List (String × List ℚ × List ℚ)) (prob_threshold : ℚ)
    (counter_causal_only : Bool) : Except String (List (String × ℚ)) :=
  let results :=
    (features.map
        (fun f =>
          nonmono_feature_rows detect prob_threshold counter_causal_only
            f.1 f.2.1 f.2.2)).flatten
  pd_DataFrame results 2

/-- Lines 100-114: evaluate_discontinuity_sample, with the parameter
semantics exactly as declared there: disc_val is the first of y_vals when
idx_before_mid is truthy and the second otherwise, cont_val interpolates
from the first y value with the given slope, and the sign of the
contribution is chosen by testing y_true == 0.0. The y_true and
idx_before_mid parameters are dynamic Python values because the only call
site (lines 130-136) passes a bool and a float into them positionally. -/
def evaluate_discontinuity_sample (x_val : ℚ) (y_vals : ℚ × ℚ)
    (y_true idx_before_mid : PyVal) (slope : ℚ) : ℚ :=
  let begin_y_val := y_vals.1
  let end_y_val := y_vals.2
  let disc_val := if idx_before_mid.truthy then begin_y_val else end_y_val
  let cont_val := begin_y_val + x_val * slope
  if y_true.eq_zero then cont_val - disc_val else disc_val - cont_val

/-- Lines 117-137: evaluate_discontinuity, with the three-element
changepoints list destructured at line 121 received as three arguments.
The assert at line 122 is modelled as an Except error. The loop body
passes its five arguments positionally, so sample <= changepoint lands in
the y_true parameter, cont_slope in idx_before_mid, and y_true[sample] in
slope, exactly as the source does. -/
def evaluate_discontinuity (sorted_x sorted_y y_true : List ℚ)
    (prev_changepoint changepoint next_changepoint : ℕ) : Except String ℚ :=
  if 0 < changepoint then
    let begin_y_val := sorted_y.getD prev_changepoint 0
    let end_y_val := sorted_y.getD next_changepoint 0
    let begin_x_val := sorted_x.getD prev_changepoint 0
    let end_x_val := sorted_x.getD next_changepoint 0
    let cont_slope := pydiv (end_y_val - begin_y_val) (end_x_val - begin_x_val)
    Except.ok
      (((List.range' prev_changepoint (next_changepoint - prev_changepoint)).map
          (fun sample =>
            evaluate_discontinuity_sample
              (sorted_x.getD sample 0 - begin_x_val)
              (begin_y_val, end_y_val)
              (PyVal.pybool (decide (sample ≤ changepoint)))
              cont_slope
              (y_true.getD sample 0))).sum)
  else Except.error "AssertionError"

/-- Modelled from the spec (section 4.3 steps 4): the intended per-window
score. For every sample s in the window, discontinuousValue is beginY for
s <= cp and endY after, continuousValue is the linear interpolation
beginY + (x[s] - beginX) * contSlope, and the contribution is
continuousValue - discontinuousValue for a negative outcome and the
negation for a positive one. This definition follows the spec wording and
exists only to be compared against the source-derived
evaluate_discontinuity. -/
def window_score_spec (sorted_x sorted_y y_true : List ℚ)
    (prevCp cp nextCp : ℕ) : ℚ :=
  let beginY := sorted_y.getD prevCp 0
  let endY := sorted_y.getD nextCp 0
  let beginX := sorted_x.getD prevCp 0
  let endX := sorted_x.getD nextCp 0
  let contSlope := (endY - beginY) / (endX - beginX)
  ((List.range' prevCp (nextCp - prevCp)).map
      (fun s =>
        let discontinuousValue := if s ≤ cp then beginY else endY
        let continuousValue := beginY + (sorted_x.getD s 0 - beginX) * contSlope
        if y_true.getD s 0 = 0 then continuousValue - discontinuousValue
        else discontinuousValue - continuousValue)).sum

/-- Line 147: np.where(np.abs(slopes) > 0)[0], the strictly increasing list
of indices carrying a nonzero slope. -/
def changepoint_idxs (slopes : List ℚ) : List ℕ :=
  (List.range slopes.length).filter (fun i => 0 < |slopes.getD i 0|)

/-- Line 153: the previous candidate, changepoints[i - 1] (only evaluated
for i >= 1). -/
def disc_prev (cps : List ℕ) (i : ℕ) : ℕ :=
  cps.getD (i - 1) 0

/-- The candidate itself, changepoints[i]. -/
def disc_cp (cps : List ℕ) (i : ℕ) : ℕ :=
  cps.getD i 0

/-- Lines 154-157: changepoints[i + 1], with the IndexError handler
substituting len(slopes) - 1 when no later candidate exists; getD performs
exactly that fallback. -/
def next_changepoint_lookup (cps : List ℕ) (i : ℕ) (slopes_len : ℕ) : ℕ :=
  cps.getD (i + 1) (slopes_len - 1)

/-- Line 165: the window sample count next_changepoint - prev_changepoint,
as a Python int. -/
def disc_n_samples (cps : List ℕ) (i : ℕ) (slopes_len : ℕ) : ℤ :=
  (next_changepoint_lookup cps i slopes_len : ℤ) - (disc_prev cps i : ℤ)

/-- One row of the per-feature discontinuity array (lines 167-176). The
source stores np.exp(log_p_diff / n_samples) as the third entry; the model
records the exponent log_p_diff / n_samples itself (exp is strictly
monotone and injective, and the real exponential is not computable), so
effect_exponent e stands for the Effect Size exp(e). -/
structure DiscRow where
  value : ℚ
  n_samples : ℚ
  effect_exponent : ℚ
  p_ratio_score : ℚ
deriving DecidableEq

/-- Lines 148-176, one iteration of the candidate loop: the first
candidate is skipped, every later candidate is scored over its window and
emitted iff log_p_diff > 0 and the window holds strictly more than
min_samples samples. An assertion failure inside evaluate_discontinuity
propagates. -/
def disc_candidate_entry (sorted_x sorted_y y_true : List ℚ)
    (slopes : List ℚ) (cps : List ℕ) (min_samples : ℤ) (i : ℕ) :
    Except String (List DiscRow) :=
  if i = 0 then Except.ok []
  else
    let prev_changepoint := disc_prev cps i
    let changepoint := disc_cp cps i
    let next_changepoint := next_changepoint_lookup cps i slopes.length
    match
      evaluate_discontinuity sorted_x sorted_y y_true
        prev_changepoint changepoint next_changepoint with
    | Except.error e => Except.error e
    | Except.ok log_p_diff =>
      let n_samples := disc_n_samples cps i slopes.length
      if 0 < log_p_diff ∧ min_samples < n_samples then
        Except.ok
          [{ value := sorted_x.getD changepoint 0
             n_samples := (n_samples : ℚ)
             effect_exponent := log_p_diff / (n_samples : ℚ)
             p_ratio_score := log_p_diff }]
      else Except.ok []

/-- The candidate loop of find_discontinuities_in_sorted over the listed
candidate positions, concatenating the produced rows and propagating the
first raised exception. -/
def disc_loop (sorted_x sorted_y y_true : List ℚ) (slopes : List ℚ)
    (cps : List ℕ) (min_samples : ℤ) : List ℕ → Except String (List DiscRow)
  | [] => Except.ok []
  | i :: rest =>
    match disc_candidate_entry sorted_x sorted_y y_true slopes cps min_samples i with
    | Except.error e => Except.error e
    | Except.ok rows =>
      match disc_loop sorted_x sorted_y y_true slopes cps min_samples rest with
      | Except.error e => Except.error e
      | Except.ok rest_rows => Except.ok (rows ++ rest_rows)

/-- Lines 140-177: find_discontinuities_in_sorted. -/
def find_discontinuities_in_sorted (sorted_x sorted_y y_true : List ℚ)
    (min_samples : ℤ) : Except String (List DiscRow) :=
  let slopes := calc_slopes sorted_x sorted_y
  let cps := changepoint_idxs slopes
  disc_loop sorted_x sorted_y y_true slopes cps min_samples
    (List.range cps.length)

/-- Decimal digits of the proper fraction n / d (0 <= n < d), most
significant first, stopping at remainder zero or after the fuel runs out.
Seventeen digits suffice for every shortest-roundtrip rendering of a
float64. -/
def decimal_digits : ℕ → ℕ → ℕ → List ℕ
  | 0, _, _ => []
  | _ + 1, 0, _ => []
  | fuel + 1, n, d => (10 * n / d) :: decimal_digits fuel (10 * n % d) d

/-- str() of the float q, as numpy produces when casting float64 cells to
a string dtype: sign, integer part, a dot and the fractional digits, with
a whole number rendered with a single trailing zero (10.0, 9.0). The model
prints the exact decimal expansion truncated to seventeen fractional
digits; it coincides with the float rendering for every value a theorem
below evaluates it on (whole numbers). -/
def py_float_str (q : ℚ) : String :=
  let sign := if q < 0 then "-" else ""
  let n := q.num.natAbs
  let d := q.den
  let ip := n / d
  let frac := decimal_digits 17 (n % d) d
  sign ++ toString ip ++ "." ++
    (if frac.isEmpty then "0" else String.join (frac.map (fun k => toString k)))

/-- Lexicographic order on character lists by code point, the comparison
numpy and pandas apply to string cells. -/
def char_list_le : List Char → List Char → Bool
  | [], _ => true
  | _ :: _, [] => false
  | a :: as, b :: bs =>
    a.val < b.val || (a.val = b.val && char_list_le as bs)

/-- The sort key pandas uses at line 212: the discontinuity rows were
stacked with the feature-name column through np.hstack at lines 195-207,
which promotes every cell to a string, so sort_values("P-Ratio") compares
the string renderings of the raw scores, not their numeric values. -/
def pd_sort_key (r : String × DiscRow) : List Char :=
  (py_float_str r.2.p_ratio_score).data

/-- discontinuities_df.sort_values("P-Ratio", ascending=False): the table
rows reordered so the string renderings of the P-Ratio column descend
lexicographically. -/
def sort_values_pratio_desc (rows : List (String × DiscRow)) :
    List (String × DiscRow) :=
  List.insertionSort
    (fun a b => char_list_le (pd_sort_key b) (pd_sort_key a) = true) rows

/-- Lines 186-207, the per-feature body of find_discontinuities_from_ebm:
sort the feature column, reorder its embedding column the same way, run
find_discontinuities_in_sorted, and tag every resulting row with the
feature name (the np.hstack of the name column). -/
def disc_feature_rows (feat : String × List ℚ × List ℚ) (y_true : List ℚ)
    (min_samples : ℤ) : Except String (List (String × DiscRow)) :=
  let sorted_x := sorted_by feat.2.1 feat.2.1
  let sorted_y := sorted_by feat.2.1 feat.2.2
  match find_discontinuities_in_sorted sorted_x sorted_y y_true min_samples with
  | Except.error e => Except.error e
  | Except.ok rows => Except.ok (rows.map (fun r => (feat.1, r)))

/-- The feature loop of find_discontinuities_from_ebm, concatenating the
per-feature row lists (a feature with no rows contributes nothing). -/
def disc_features_loop (y_true : List ℚ) (min_samples : ℤ) :
    List (String × List ℚ × List ℚ) → Except String (List (String × DiscRow))
  | [] => Except.ok []
  | f :: rest =>
    match disc_feature_rows f y_true min_samples with
    | Except.error e => Except.error e
    | Except.ok rows =>
      match disc_features_loop y_true min_samples rest with
      | Except.error e => Except.error e
      | Except.ok rest_rows => Except.ok (rows ++ rest_rows)

/-- Lines 180-212: find_discontinuities_from_ebm. Each feature carries its
x column and its externally computed embedding column; y_true is the
shared outcome vector. The collected rows go through the DataFrame
constructor (which raises on an empty row list, see pd_DataFrame) and are
finally sorted descending on the stringified P-Ratio column. -/
def find_discontinuities_from_ebm (features : List (String × List ℚ × List ℚ))
    (y_true : List ℚ) (min_samples : ℤ) :
    Except String (List (String × DiscRow)) :=
  match disc_features_loop y_true min_samples features with
  | Except.error e => Except.error e
  | Except.ok discontinuities =>
    match pd_DataFrame discontinuities 5 with
    | Except.error e => Except.error e
    | Except.ok df => Except.ok (sort_values_pratio_desc df)

/-- C9 counterexample: with the invalid-value mode set to raise before the
call, the configuration observable after calc_slopes returns differs from
the one before the call, because line 38 hardcodes warn instead of
restoring the saved mode. -/
theorem calc_slopes_errstate_not_restored :
    (calc_slopes_errstate
        ⟨NpErrMode.warn, NpErrMode.warn, NpErrMode.warn, NpErrMode.raiseMode⟩
        [] []).2 ≠
      ⟨NpErrMode.warn, NpErrMode.warn, NpErrMode.warn, NpErrMode.raiseMode⟩ := by
  decide

/-- C9 (amended): calc_slopes always leaves the process-wide invalid-value
mode equal to warn (the numpy default), whatever it was before; the prior
configuration is preserved exactly when its invalid mode was already
warn. -/
theorem calc_slopes_errstate_leaves_warn (s : NpErrState) (x y : List ℚ) :
    (calc_slopes_errstate s x y).2 = np_seterr_invalid s NpErrMode.warn ∧
      ((calc_slopes_errstate s x y).2 = s ↔ s.invalid = NpErrMode.warn) := by
  refine ⟨rfl, ?_⟩
  cases s
  simp [calc_slopes_errstate, np_seterr_invalid, eq_comm]

/-- C4: for equal-length inputs with at least one sample, calc_slopes has
length one less than its inputs, every slope equals the difference
quotient (y[i+1] - y[i]) / (x[i+1] - x[i]), and an interval with zero
x-difference yields slope exactly 0 (the quotient form also evaluates to 0
there because division by zero is zero in ℚ, matching the nonfinite mask
of line 37). -/
theorem calc_slopes_length_and_values (x y : List ℚ)
    (hlen : x.length = y.length) (hn : 1 ≤ x.length) :
    (calc_slopes x y).length = x.length - 1 ∧
      ∀ i, i < x.length - 1 →
        (calc_slopes x y).getD i 0 =
            (y.getD (i + 1) 0 - y.getD i 0) / (x.getD (i + 1) 0 - x.getD i 0) ∧
          (x.getD (i + 1) 0 - x.getD i 0 = 0 → (calc_slopes x y).getD i 0 = 0) := by
  have hlength : (calc_slopes x y).length = x.length - 1 := by
    simp [calc_slopes, hlen]
  refine ⟨hlength, ?_⟩
  intro i hi
  have hix : i < x.length := by omega
  have hix1 : i + 1 < x.length := by omega
  have hiy : i < y.length := by omega
  have hiy1 : i + 1 < y.length := by omega
  have hislope : i < (calc_slopes x y).length := by omega
  have hyt : i < y.tail.length := by simp [List.length_tail]; omega
  have hxt : i < x.tail.length := by simp [List.length_tail]; omega
  have hslope : (calc_slopes x y).getD i 0 =
      (y.getD (i + 1) 0 - y.getD i 0) / (x.getD (i + 1) 0 - x.getD i 0) := by
    rw [List.getD_eq_getElem _ _ hislope,
      List.getD_eq_getElem _ _ hix1, List.getD_eq_getElem _ _ hix,
      List.getD_eq_getElem _ _ hiy1, List.getD_eq_getElem _ _ hiy]
    show (List.zipWith _ (List.zipWith _ y.tail y) (List.zipWith _ x.tail x))[i] = _
    rw [List.getElem_zipWith, List.getElem_zipWith, List.getElem_zipWith,
      List.getElem_tail, List.getElem_tail]
    by_cases hdx : x[i + 1] - x[i] = 0
    · simp [pydiv, hdx]
    · simp [pydiv, hdx]
  refine ⟨hslope, fun hdx => ?_⟩
  rw [hslope, hdx, div_zero]

/-- C4 witness: a concrete three-sample input containing a repeated x
value; the theorem applies and yields two slopes, the first interval
having zero x-difference. -/
theorem calc_slopes_length_and_values_witness :
    (([0, 0, 2] : List ℚ).length = ([1, 2, 4] : List ℚ).length) ∧
      1 ≤ ([0, 0, 2] : List ℚ).length ∧
      ((calc_slopes [0, 0, 2] [1, 2, 4]).length = ([0, 0, 2] : List ℚ).length - 1 ∧
        ∀ i, i < ([0, 0, 2] : List ℚ).length - 1 →
          (calc_slopes [0, 0, 2] [1, 2, 4]).getD i 0 =
              (([1, 2, 4] : List ℚ).getD (i + 1) 0 - ([1, 2, 4] : List ℚ).getD i 0) /
                (([0, 0, 2] : List ℚ).getD (i + 1) 0 - ([0, 0, 2] : List ℚ).getD i 0) ∧
            (([0, 0, 2] : List ℚ).getD (i + 1) 0 - ([0, 0, 2] : List ℚ).getD i 0 = 0 →
              (calc_slopes [0, 0, 2] [1, 2, 4]).getD i 0 = 0)) :=
  ⟨rfl, by decide, calc_slopes_length_and_values [0, 0, 2] [1, 2, 4] rfl (by decide)⟩

/-- Slopes of the concrete four-sample identity ramp. -/
lemma calc_slopes_ramp4 : calc_slopes [0, 1, 2, 3] [0, 1, 2, 3] = [1, 1, 1] := by
  norm_num [calc_slopes, pydiv]

/-- Candidate changepoints of the ramp: every slope index. -/
lemma changepoint_idxs_ramp4 : changepoint_idxs [1, 1, 1] = [0, 1, 2] := by
  norm_num [changepoint_idxs, List.range_succ, List.filter_append, abs_pos]

/-- C6 counterexample: on the four-sample ramp every slope is a candidate;
for the last candidate (position 2) the next-changepoint lookup falls back
to len(slopes) - 1 = 2, which is not the last valid sample index 3 of the
sorted sample sequence. -/
theorem next_changepoint_fallback_not_last_sample :
    next_changepoint_lookup (changepoint_idxs (calc_slopes [0, 1, 2, 3] [0, 1, 2, 3])) 2
        (calc_slopes ([0, 1, 2, 3] : List ℚ) [0, 1, 2, 3]).length = 2 ∧
      ([0, 1, 2, 3] : List ℚ).length - 1 = 3 ∧ (2 : ℕ) ≠ 3 := by
  rw [calc_slopes_ramp4, changepoint_idxs_ramp4]
  refine ⟨rfl, rfl, by decide⟩

/-- C6 (amended): when no later candidate exists (the position after the
current one is past the end of the candidate list), the next-changepoint
lookup falls back, without failing, to len(slopes) - 1, the last valid
index of the slope sequence, equal to the sample count minus two — one
less than the last valid sample index. -/
theorem next_changepoint_fallback_last_slope_index (x y : List ℚ)
    (cps : List ℕ) (i : ℕ) (hlen : x.length = y.length)
    (hlast : cps.length ≤ i + 1) :
    next_changepoint_lookup cps i (calc_slopes x y).length = x.length - 2 := by
  have hclen : (calc_slopes x y).length = x.length - 1 := by
    simp [calc_slopes, hlen]
  rw [next_changepoint_lookup, List.getD_eq_default _ _ hlast, hclen]
  omega

/-- C6 witness: the ramp input with its three candidates, at the last
candidate position. -/
theorem next_changepoint_fallback_last_slope_index_witness :
    (([0, 1, 2, 3] : List ℚ).length = ([0, 1, 2, 3] : List ℚ).length) ∧
      ([0, 1, 2] : List ℕ).length ≤ 2 + 1 ∧
      next_changepoint_lookup [0, 1, 2] 2
          (calc_slopes ([0, 1, 2, 3] : List ℚ) [0, 1, 2, 3]).length =
        ([0, 1, 2, 3] : List ℚ).length - 2 :=
  ⟨rfl, by decide,
    next_changepoint_fallback_last_slope_index [0, 1, 2, 3] [0, 1, 2, 3]
      [0, 1, 2] 2 rfl (by decide)⟩

/-- The candidate list is strictly increasing: it filters the strictly
increasing index range. -/
lemma changepoint_idxs_pairwise (slopes : List ℚ) :
    (changepoint_idxs slopes).Pairwise (· < ·) :=
  (List.pairwise_lt_range _).filter _

/-- Every candidate after the first is a strictly positive index. -/
lemma changepoint_idxs_pos (slopes : List ℚ) (i : ℕ) (h1 : 1 ≤ i)
    (h2 : i < (changepoint_idxs slopes).length) :
    0 < (changepoint_idxs slopes).getD i 0 := by
  have h0 : 0 < (changepoint_idxs slopes).length := by omega
  have hpw := (List.pairwise_iff_getElem).mp (changepoint_idxs_pairwise slopes)
  have hlt := hpw 0 i h0 h2 (by omega)
  rw [List.getD_eq_getElem _ _ h2]
  omega

/-- A later candidate position always yields a well-defined entry (the
line 122 assertion holds because the skipped first candidate makes the
changepoint index at least the second of a strictly increasing list of
nonnegative indices, hence positive). -/
lemma disc_candidate_entry_ok (x y t : List ℚ) (m : ℤ) (i : ℕ)
    (h : i < (changepoint_idxs (calc_slopes x y)).length) :
    ∃ rows,
      disc_candidate_entry x y t (calc_slopes x y)
          (changepoint_idxs (calc_slopes x y)) m i = Except.ok rows := by
  by_cases hi0 : i = 0
  · exact ⟨[], by simp [disc_candidate_entry, hi0]⟩
  · have hcp : 0 < disc_cp (changepoint_idxs (calc_slopes x y)) i :=
      changepoint_idxs_pos _ i (by omega) h
    obtain ⟨lpd, hlpd⟩ :
        ∃ lpd,
          evaluate_discontinuity x y t
              (disc_prev (changepoint_idxs (calc_slopes x y)) i)
              (disc_cp (changepoint_idxs (calc_slopes x y)) i)
              (next_changepoint_lookup (changepoint_idxs (calc_slopes x y)) i
                (calc_slopes x y).length) = Except.ok lpd := by
      rw [evaluate_discontinuity, if_pos hcp]
      exact ⟨_, rfl⟩
    unfold disc_candidate_entry
    rw [if_neg hi0]
    simp only [hlpd]
    by_cases hkeep :
        0 < lpd ∧
          m < disc_n_samples (changepoint_idxs (calc_slopes x y)) i
              (calc_slopes x y).length
    · exact ⟨_, by rw [if_pos hkeep]⟩
    · exact ⟨[], by rw [if_neg hkeep]⟩

/-- When every listed candidate position yields a well-defined entry, the
whole loop does. -/
lemma disc_loop_ok (x y t slopes : List ℚ) (cps : List ℕ) (m : ℤ)
    (idxs : List ℕ)
    (h : ∀ i ∈ idxs,
      ∃ rows, disc_candidate_entry x y t slopes cps m i = Except.ok rows) :
    ∃ rows, disc_loop x y t slopes cps m idxs = Except.ok rows := by
  induction idxs with
  | nil => exact ⟨[], rfl⟩
  | cons a rest ih =>
    obtain ⟨ra, hra⟩ := h a (List.mem_cons_self a rest)
    obtain ⟨rr, hrr⟩ := ih (fun i hi => h i (List.mem_cons_of_mem a hi))
    exact ⟨ra ++ rr, by rw [disc_loop, hra, hrr]⟩

/-- C10: the assertion changepoint > 0 inside evaluate_discontinuity never
fires on any call made from find_discontinuities_in_sorted: for every
input the function returns normally. -/
theorem find_discontinuities_in_sorted_no_assertion_failure
    (x y t : List ℚ) (m : ℤ) :
    ∃ rows, find_discontinuities_in_sorted x y t m = Except.ok rows := by
  unfold find_discontinuities_in_sorted
  apply disc_loop_ok
  intro i hi
  exact disc_candidate_entry_ok x y t m i (List.mem_range.mp hi)

/-- C5: a later candidate produces exactly one output row when its window
score is positive and its window holds strictly more than min_samples
samples, and no row otherwise; the emitted row is the x value at the
changepoint, the window count, the Effect Size exponent log_p_diff / n
(the source stores np.exp of it), and log_p_diff itself. -/
theorem disc_row_emitted_iff (x y t : List ℚ) (m : ℤ) (i : ℕ)
    (h1 : 1 ≤ i) (h2 : i < (changepoint_idxs (calc_slopes x y)).length) :
    ∃ log_p_diff : ℚ,
      evaluate_discontinuity x y t
          (disc_prev (changepoint_idxs (calc_slopes x y)) i)
          (disc_cp (changepoint_idxs (calc_slopes x y)) i)
          (next_changepoint_lookup (changepoint_idxs (calc_slopes x y)) i
            (calc_slopes x y).length) = Except.ok log_p_diff ∧
        disc_candidate_entry x y t (calc_slopes x y)
            (changepoint_idxs (calc_slopes x y)) m i =
          Except.ok
            (if 0 < log_p_diff ∧
                m < disc_n_samples (changepoint_idxs (calc_slopes x y)) i
                    (calc_slopes x y).length
              then
                [{ value :=
                      x.getD (disc_cp (changepoint_idxs (calc_slopes x y)) i) 0
                   n_samples :=
                      (disc_n_samples (changepoint_idxs (calc_slopes x y)) i
                          (calc_slopes x y).length : ℚ)
                   effect_exponent :=
                      log_p_diff /
                        (disc_n_samples (changepoint_idxs (calc_slopes x y)) i
                            (calc_slopes x y).length : ℚ)
                   p_ratio_score := log_p_diff }]
              else []) := by
  have hcp : 0 < disc_cp (changepoint_idxs (calc_slopes x y)) i :=
    changepoint_idxs_pos _ i h1 h2
  obtain ⟨lpd, hlpd⟩ :
      ∃ lpd,
        evaluate_discontinuity x y t
            (disc_prev (changepoint_idxs (calc_slopes x y)) i)
            (disc_cp (changepoint_idxs (calc_slopes x y)) i)
            (next_changepoint_lookup (changepoint_idxs (calc_slopes x y)) i
              (calc_slopes x y).length) = Except.ok lpd := by
    rw [evaluate_discontinuity, if_pos hcp]
    exact ⟨_, rfl⟩
  refine ⟨lpd, hlpd, ?_⟩
  unfold disc_candidate_entry
  rw [if_neg (by omega : ¬i = 0)]
  simp only [hlpd]
  rw [apply_ite Except.ok]

/-- Slopes of the concrete three-sample identity ramp. -/
lemma calc_slopes_ramp3 : calc_slopes [0, 1, 2] [0, 1, 2] = [1, 1] := by
  norm_num [calc_slopes, pydiv]

/-- Candidate changepoints of the three-sample ramp. -/
lemma changepoint_idxs_ramp3 : changepoint_idxs [1, 1] = [0, 1] := by
  norm_num [changepoint_idxs, List.range_succ, List.filter_append, abs_pos]

/-- C5 witness: the three-sample ramp at candidate position 1. -/
theorem disc_row_emitted_iff_witness :
    1 ≤ 1 ∧
      1 < (changepoint_idxs (calc_slopes ([0, 1, 2] : List ℚ) [0, 1, 2])).length ∧
      (∃ log_p_diff : ℚ,
        evaluate_discontinuity [0, 1, 2] [0, 1, 2] [0, 0, 0]
            (disc_prev (changepoint_idxs (calc_slopes [0, 1, 2] [0, 1, 2])) 1)
            (disc_cp (changepoint_idxs (calc_slopes [0, 1, 2] [0, 1, 2])) 1)
            (next_changepoint_lookup (changepoint_idxs (calc_slopes [0, 1, 2] [0, 1, 2])) 1
              (calc_slopes ([0, 1, 2] : List ℚ) [0, 1, 2]).length) = Except.ok log_p_diff ∧
          disc_candidate_entry [0, 1, 2] [0, 1, 2] [0, 0, 0]
              (calc_slopes [0, 1, 2] [0, 1, 2])
              (changepoint_idxs (calc_slopes [0, 1, 2] [0, 1, 2])) 0 1 =
            Except.ok
              (if 0 < log_p_diff ∧
                  0 < disc_n_samples (changepoint_idxs (calc_slopes [0, 1, 2] [0, 1, 2])) 1
                      (calc_slopes ([0, 1, 2] : List ℚ) [0, 1, 2]).length
                then
                  [{ value :=
                        ([0, 1, 2] : List ℚ).getD
                          (disc_cp (changepoint_idxs (calc_slopes [0, 1, 2] [0, 1, 2])) 1) 0
                     n_samples :=
                        (disc_n_samples (changepoint_idxs (calc_slopes [0, 1, 2] [0, 1, 2])) 1
                            (calc_slopes ([0, 1, 2] : List ℚ) [0, 1, 2]).length : ℚ)
                     effect_exponent :=
                        log_p_diff /
                          (disc_n_samples (changepoint_idxs (calc_slopes [0, 1, 2] [0, 1, 2])) 1
                              (calc_slopes ([0, 1, 2] : List ℚ) [0, 1, 2]).length : ℚ)
                     p_ratio_score := log_p_diff }]
                else [])) :=
  ⟨by decide, by rw [calc_slopes_ramp3, changepoint_idxs_ramp3]; decide,
    disc_row_emitted_iff [0, 1, 2] [0, 1, 2] [0, 0, 0] 0 1 (by decide)
      (by rw [calc_slopes_ramp3, changepoint_idxs_ramp3]; decide)⟩

/-- C8: a feature whose sign sequence has fewer than three entries
contributes no non-monotonicity rows, for every detector, probability
threshold and filter setting. -/
theorem nonmono_skips_short_sign_sequence (detect : List ℚ → ℚ → List ℕ)
    (pt : ℚ) (cco : Bool) (pred : String) (xs ys : List ℚ)
    (h : (feature_signs xs ys).length < 3) :
    nonmono_feature_rows detect pt cco pred xs ys = [] := by
  simp only [nonmono_feature_rows]
  rw [if_pos h]

/-- The sign sequence of a feature with a single informative slope. -/
lemma feature_signs_short : feature_signs [0, 1, 2] [0, 0, 5] = [1] := by
  norm_num [feature_signs, feature_my_slopes, sorted_by, np_argsort,
    List.insertionSort, List.orderedInsert, List.range_succ, calc_slopes,
    pydiv, nonmono_signs, nonmono_nonzero_idx, List.filter_append]

/-- C8 witness: a three-sample feature with one informative slope yields
no rows. -/
theorem nonmono_skips_short_sign_sequence_witness :
    (feature_signs [0, 1, 2] [0, 0, 5]).length < 3 ∧
      nonmono_feature_rows (fun _ _ => [0]) 0 false "p" [0, 1, 2] [0, 0, 5] = [] :=
  ⟨by rw [feature_signs_short]; decide,
    nonmono_skips_short_sign_sequence (fun _ _ => [0]) 0 false "p" [0, 1, 2]
      [0, 0, 5] (by rw [feature_signs_short]; decide)⟩

/-- C7: with the counter-causal-only filter enabled, a detected
changepoint c over the sign sequence is kept exactly when the mean of
signs[max(0, c-1):c] strictly exceeds the mean of
signs[c:min(c+1, len-1)] (comparisons against the nan mean of an empty
slice are False); with the filter disabled every detected changepoint is
kept. Rows pair the feature name with the sorted informative x value at
the changepoint index. -/
theorem nonmono_counter_causal_filter (detect : List ℚ → ℚ → List ℕ)
    (pt : ℚ) (pred : String) (xs ys : List ℚ)
    (h3 : 3 ≤ (feature_signs xs ys).length) :
    nonmono_feature_rows detect pt true pred xs ys =
        ((detect (feature_signs xs ys) pt).filter
            (fun (c : ℕ) =>
              opt_gt
                (np_mean
                  (py_slice (feature_signs xs ys) (max 0 (c - 1)) c))
                (np_mean
                  (py_slice (feature_signs xs ys) c
                    (min (c + 1) ((feature_signs xs ys).length - 1)))))).map
          (fun c => (pred, (feature_x_nz xs ys).2.getD c 0)) ∧
      nonmono_feature_rows detect pt false pred xs ys =
        (detect (feature_signs xs ys) pt).map
          (fun c => (pred, (feature_x_nz xs ys).2.getD c 0)) := by
  constructor
  · simp only [nonmono_feature_rows]
    rw [if_neg (by omega)]
    congr 1
    apply List.filter_congr
    intro c _
    simp only [Bool.true_and, Bool.not_not]
    rw [Nat.zero_max]
    rfl
  · simp only [nonmono_feature_rows]
    rw [if_neg (by omega)]
    simp

/-- The sign sequence of the four-sample zigzag feature. -/
lemma feature_signs_zigzag : feature_signs [0, 1, 2, 3] [0, 1, 0, 1] = [1, -1, 1] := by
  norm_num [feature_signs, feature_my_slopes, sorted_by, np_argsort,
    List.insertionSort, List.orderedInsert, List.range_succ, calc_slopes,
    pydiv, nonmono_signs, nonmono_nonzero_idx, List.filter_append, abs_neg]

/-- C7 witness: the zigzag feature with a detector reporting changepoint 1. -/
theorem nonmono_counter_causal_filter_witness :
    3 ≤ (feature_signs [0, 1, 2, 3] [0, 1, 0, 1]).length ∧
      (nonmono_feature_rows (fun _ _ => [1]) 0 true "p" [0, 1, 2, 3] [0, 1, 0, 1] =
          (((fun (_ : List ℚ) (_ : ℚ) => [1]) (feature_signs [0, 1, 2, 3] [0, 1, 0, 1]) 0).filter
              (fun (c : ℕ) =>
                opt_gt
                  (np_mean
                    (py_slice (feature_signs [0, 1, 2, 3] [0, 1, 0, 1])
                      (max 0 (c - 1)) c))
                  (np_mean
                    (py_slice (feature_signs [0, 1, 2, 3] [0, 1, 0, 1]) c
                      (min (c + 1) ((feature_signs [0, 1, 2, 3] [0, 1, 0, 1]).length - 1)))))).map
            (fun c => ("p", (feature_x_nz [0, 1, 2, 3] [0, 1, 0, 1]).2.getD c 0)) ∧
        nonmono_feature_rows (fun _ _ => [1]) 0 false "p" [0, 1, 2, 3] [0, 1, 0, 1] =
          ((fun (_ : List ℚ) (_ : ℚ) => [1]) (feature_signs [0, 1, 2, 3] [0, 1, 0, 1]) 0).map
            (fun c => ("p", (feature_x_nz [0, 1, 2, 3] [0, 1, 0, 1]).2.getD c 0))) :=
  ⟨by rw [feature_signs_zigzag]; decide,
    nonmono_counter_causal_filter (fun _ _ => [1]) 0 "p" [0, 1, 2, 3] [0, 1, 0, 1]
      (by rw [feature_signs_zigzag]; decide)⟩


/-- C1 counterexample computation: on the window [0, 1, 2] of a
three-sample step input, the source returns -1, but the per-sample rule of
the spec (discontinuousValue switching at the changepoint, interpolation
with contSlope, sign chosen by y_true) sums to -5. The discrepancy comes
from lines 130-136 passing sample <= changepoint, cont_slope and
y_true[sample] positionally into the parameters y_true, idx_before_mid and
slope of evaluate_discontinuity_sample, in the wrong order. -/
theorem evaluate_discontinuity_contradicts_spec_formula :
    evaluate_discontinuity [0, 1, 2] [0, 10, 10] [0, 1, 0] 0 1 2 =
        Except.ok (-1) ∧
      window_score_spec [0, 1, 2] [0, 10, 10] [0, 1, 0] 0 1 2 = -5 ∧
      (-1 : ℚ) ≠ -5 := by
  refine ⟨?_, ?_, by norm_num⟩
  · norm_num [evaluate_discontinuity, evaluate_discontinuity_sample, pydiv,
      PyVal.truthy, PyVal.eq_zero, List.range']
  · norm_num [window_score_spec, List.range']

/-- C3: when no feature yields a row, both detectors raise: the empty row
list reaches pd.DataFrame as a 1-D empty array whose single implied column
cannot match the two (respectively five) requested column names, so the
constructor raises ValueError instead of returning an empty table. -/
theorem empty_results_raise_value_error :
    find_non_monotonicities_from_ebm (fun _ _ => []) [("A", [0, 1], [5, 5])]
        0 false = Except.error "ValueError" ∧
      find_discontinuities_from_ebm [("A", [0, 1, 2], [5, 5, 5])] [0, 1, 0]
        100 = Except.error "ValueError" := by
  constructor
  · norm_num [find_non_monotonicities_from_ebm, nonmono_feature_rows,
      feature_signs, feature_my_slopes, sorted_by, np_argsort,
      List.insertionSort, List.orderedInsert, List.range_succ, calc_slopes,
      pydiv, nonmono_signs, nonmono_nonzero_idx, feature_x_nz, pd_DataFrame,
      List.filter_append]
  · norm_num [find_discontinuities_from_ebm, disc_features_loop,
      disc_feature_rows, find_discontinuities_in_sorted, disc_loop,
      changepoint_idxs, calc_slopes, pydiv, sorted_by, np_argsort,
      List.insertionSort, List.orderedInsert, List.range_succ,
      List.filter_append, pd_DataFrame]

/-- Argsort of the first counterexample feature column (already ascending). -/
lemma np_argsort_f1 : np_argsort [0, 1, 2, 3, 5, 6, 7] = [0, 1, 2, 3, 4, 5, 6] := by
  norm_num [np_argsort, List.insertionSort, List.orderedInsert, List.range_succ]

/-- Argsort of the second counterexample feature column. -/
lemma np_argsort_f2 : np_argsort [0, 1, 2, 3, 4, 5, 6] = [0, 1, 2, 3, 4, 5, 6] := by
  norm_num [np_argsort, List.insertionSort, List.orderedInsert, List.range_succ]

/-- Sorting the first feature column by itself is the identity. -/
lemma sorted_by_f1x :
    sorted_by [0, 1, 2, 3, 5, 6, 7] [0, 1, 2, 3, 5, 6, 7] = [0, 1, 2, 3, 5, 6, 7] := by
  rw [sorted_by, np_argsort_f1]; norm_num

/-- The embedding column of the first feature, reordered by its argsort. -/
lemma sorted_by_f1y :
    sorted_by [0, 1, 2, 3, 5, 6, 7] [0, 1, 2, 2, 2, 2, 3] = [0, 1, 2, 2, 2, 2, 3] := by
  rw [sorted_by, np_argsort_f1]; norm_num

/-- Sorting the second feature column by itself is the identity. -/
lemma sorted_by_f2x :
    sorted_by [0, 1, 2, 3, 4, 5, 6] [0, 1, 2, 3, 4, 5, 6] = [0, 1, 2, 3, 4, 5, 6] := by
  rw [sorted_by, np_argsort_f2]; norm_num

/-- The embedding column of the second feature, reordered by its argsort. -/
lemma sorted_by_f2y :
    sorted_by [0, 1, 2, 3, 4, 5, 6] [0, 1, 2, 2, 2, 2, 3] = [0, 1, 2, 2, 2, 2, 3] := by
  rw [sorted_by, np_argsort_f2]; norm_num

/-- Slopes of the first counterexample feature. -/
lemma calc_slopes_f1 :
    calc_slopes [0, 1, 2, 3, 5, 6, 7] [0, 1, 2, 2, 2, 2, 3] = [1, 1, 0, 0, 0, 1] := by
  norm_num [calc_slopes, pydiv]

/-- Slopes of the second counterexample feature. -/
lemma calc_slopes_f2 :
    calc_slopes [0, 1, 2, 3, 4, 5, 6] [0, 1, 2, 2, 2, 2, 3] = [1, 1, 0, 0, 0, 1] := by
  norm_num [calc_slopes, pydiv]

/-- Candidate changepoints shared by both counterexample features. -/
lemma changepoint_idxs_f12 : changepoint_idxs [1, 1, 0, 0, 0, 1] = [0, 1, 5] := by
  norm_num [changepoint_idxs, List.range_succ, List.filter_append, abs_pos]

/-- The first feature emits exactly one row, with raw score 10. -/
lemma fdis_f1 :
    find_discontinuities_in_sorted [0, 1, 2, 3, 5, 6, 7] [0, 1, 2, 2, 2, 2, 3]
        [0, 0, 1, 1, 1, 0, 0] 4 =
      Except.ok [{ value := 1, n_samples := 5, effect_exponent := 2, p_ratio_score := 10 }] := by
  simp only [find_discontinuities_in_sorted, calc_slopes_f1, changepoint_idxs_f12]
  norm_num [disc_loop, disc_candidate_entry, disc_prev, disc_cp,
    next_changepoint_lookup, disc_n_samples, evaluate_discontinuity,
    evaluate_discontinuity_sample, pydiv, PyVal.truthy, PyVal.eq_zero,
    List.range', List.range_succ]

/-- The second feature emits exactly one row, with raw score 9. -/
lemma fdis_f2 :
    find_discontinuities_in_sorted [0, 1, 2, 3, 4, 5, 6] [0, 1, 2, 2, 2, 2, 3]
        [0, 0, 1, 1, 1, 0, 0] 4 =
      Except.ok [{ value := 1, n_samples := 5, effect_exponent := 9 / 5, p_ratio_score := 9 }] := by
  simp only [find_discontinuities_in_sorted, calc_slopes_f2, changepoint_idxs_f12]
  norm_num [disc_loop, disc_candidate_entry, disc_prev, disc_cp,
    next_changepoint_lookup, disc_n_samples, evaluate_discontinuity,
    evaluate_discontinuity_sample, pydiv, PyVal.truthy, PyVal.eq_zero,
    List.range', List.range_succ]

/-- String rendering of the raw score 9. -/
lemma py_float_str_9 : py_float_str 9 = "9.0" := by
  norm_num [py_float_str, decimal_digits]
  decide

/-- String rendering of the raw score 10. -/
lemma py_float_str_10 : py_float_str 10 = "10.0" := by
  norm_num [py_float_str, decimal_digits]
  decide

/-- The string "9.0" is lexicographically greater than "10.0". -/
lemma char_list_le_key : char_list_le ['9', '.', '0'] ['1', '0', '.', '0'] = false := by
  decide

/-- C2 counterexample: on two features whose windows score 10 and 9, the
returned table places the 9 row first, because the np.hstack at lines
195-207 coerced every cell to a string and sort_values therefore compares
"9.0" and "10.0" lexicographically; the first row has a P-Ratio
numerically smaller than the later row, contradicting the claimed numeric
descending order. -/
theorem discontinuity_table_sorted_lexicographically_not_numerically :
    find_discontinuities_from_ebm
        [("f1", [0, 1, 2, 3, 5, 6, 7], [0, 1, 2, 2, 2, 2, 3]),
          ("f2", [0, 1, 2, 3, 4, 5, 6], [0, 1, 2, 2, 2, 2, 3])]
        [0, 0, 1, 1, 1, 0, 0] 4 =
      Except.ok
        [("f2", { value := 1, n_samples := 5, effect_exponent := 9 / 5, p_ratio_score := 9 }),
          ("f1", { value := 1, n_samples := 5, effect_exponent := 2, p_ratio_score := 10 })] ∧
      (9 : ℚ) < 10 := by
  refine ⟨?_, by norm_num⟩
  simp only [find_discontinuities_from_ebm, disc_features_loop,
    disc_feature_rows, sorted_by_f1x, sorted_by_f1y, sorted_by_f2x,
    sorted_by_f2y, fdis_f1, fdis_f2, List.map_cons, List.map_nil]
  simp only [pd_DataFrame, List.cons_append, List.nil_append, List.isEmpty_cons,
    Bool.false_eq_true, false_and, reduceIte]
  simp only [sort_values_pratio_desc, List.insertionSort, List.orderedInsert,
    pd_sort_key]
  simp [py_float_str_9, py_float_str_10, char_list_le_key]
